import Mathlib

/-!
Verification of the DPO (preference-pair) training data pipeline of
h2o-llmstudio: the batch log-probability scorer and the preference-pair
dataset (`CustomDataset` in
`llm_studio/src/datasets/text_dpo_language_modeling_ds.py`).

Token id sequences are modelled as `List ℤ` (the ignore sentinel is `-100`),
logits as lists of real numbers.  Python negative-slice semantics
(`t[-n:]`) are modelled by `takeLastPy`, including the `n = 0` quirk where
`t[-0:]` is the whole tensor.
-/

namespace LlmStudio

/-! ### Batch log-probability scorer

Modelled from the spec: the source module
`llm_studio/src/models/text_dpo_language_modeling_model.py` defining
`get_batch_logps` is not part of the sources at hand (only its test is);
the definitions below follow the spec's contract: per position a
log-softmax of the logits row indexed by the true label, summed over the
positions whose label is not the ignore sentinel. -/

/-- Log-softmax of entry `k` of a logits row: `x_k - log (Σ_j exp x_j)`. -/
noncomputable def logSoftmaxAt (row : List ℝ) (k : ℕ) : ℝ :=
  row.getD k 0 - Real.log ((row.map Real.exp).sum)

/-- Summed log-probability of one sequence: positions with label `-100`
contribute nothing, every other position contributes the log-softmax of its
logits row at the true label. -/
noncomputable def seqLogps (logits : List (List ℝ)) (labels : List ℤ) : ℝ :=
  ((labels.zip logits).map
    (fun p => if p.1 = -100 then 0 else logSoftmaxAt p.2 p.1.toNat)).sum

/-- Modelled from the spec: `get_batch_logps` reduces a batch of logits of
shape (batch, sequence, vocabulary) and labels of shape (batch, sequence)
to one scalar per batch element. -/
noncomputable def get_batch_logps (logits : List (List (List ℝ)))
    (labels : List (List ℤ)) : List ℝ :=
  (labels.zip logits).map (fun p => seqLogps p.2 p.1)

/-! ### Preference-pair dataset

Shallow embedding of `CustomDataset` from
`llm_studio/src/datasets/text_dpo_language_modeling_ds.py`.  A tokenized
text is represented directly by its full token-id list; the base dataset's
`encode` (not among the sources at hand) is modelled from the spec as
truncation of that list. -/

/-- Tokenizer configuration fields consumed by the dataset
(`cfg.tokenizer.max_length`, `cfg.tokenizer.max_length_answer`). -/
structure TokenizerCfg where
  max_length : ℕ
  max_length_answer : ℕ
deriving DecidableEq

/-- Dataset configuration fields consumed
(`cfg.dataset.add_eos_token_to_answer`, `cfg.dataset.limit_chained_samples`). -/
structure DatasetCfg where
  add_eos_token_to_answer : Bool
  limit_chained_samples : Bool
deriving DecidableEq

/-- The configuration surface the dataset reads. -/
structure Cfg where
  dataset : DatasetCfg
  tokenizer : TokenizerCfg
deriving DecidableEq

/-- The tokenizer fields the dataset reads (`pad_token_id`, `eos_token_id`). -/
structure Tokenizer where
  pad_token_id : ℤ
  eos_token_id : ℤ
deriving DecidableEq

/-- One emitted branch: the `input_ids`/`attention_mask`/`labels` triple. -/
structure Branch where
  input_ids : List ℤ
  attention_mask : List ℤ
  labels : List ℤ
deriving DecidableEq

/-- Python negative slice `t[-n:]`: keeps the last `n` entries, the whole
list when `n` exceeds the length, and also the whole list when `n = 0`
(since `t[-0:]` is `t[0:]`). -/
def takeLastPy (n : ℕ) (l : List ℤ) : List ℤ :=
  if n = 0 then l else l.drop (l.length - n)

/-- `right_pad_tokens`: builds `torch.full((max_length,), pad)` and
overwrites the first `len(l)` entries with `l` (torch requires
`len(l) ≤ max_length`, which holds at every call site). -/
def rightPad (pad : ℤ) (maxLength : ℕ) (l : List ℤ) : List ℤ :=
  l.take maxLength ++ List.replicate (maxLength - l.length) pad

/-- Slice assignment `labels[: promptLen] = -100`. -/
def maskPrompt : ℕ → List ℤ → List ℤ
  | _, [] => []
  | 0, labels => labels
  | p + 1, _ :: labels => -100 :: maskPrompt p labels

/-- Masked assignment `labels[labels == pad_token_id] = -100`. -/
def maskPad (pad : ℤ) (labels : List ℤ) : List ℤ :=
  labels.map (fun x => if x = pad then -100 else x)

/-- Index of `torch.max(torch.where(mask != 0)[0])`: the largest index
holding a nonzero entry.  The filtered index list is increasing, so its
last element is its maximum.  The source raises on an all-zero mask
(`torch.max` of an empty tensor); that case yields `none` here and is never
reached from `dpoGetItem`. -/
def lastNonzeroIdx (mask : List ℤ) : Option ℕ :=
  ((List.range mask.length).filter (fun i => mask.getD i 0 ≠ 0)).getLast?

/-- `create_concatenated_inputs_and_labels(prompt_input_ids,
answer_input_ids, max_length)`: concatenate, keep the last `max_length`
tokens, right-pad, build labels by masking the prompt span and pad-id
positions, restore the end-of-sequence label when configured, and finally
keep the last `cfg.tokenizer.max_length` entries of all three fields. -/
def create_concatenated_inputs_and_labels (cfg : Cfg) (tok : Tokenizer)
    (prompt_input_ids answer_input_ids : List ℤ) (maxLength : ℕ) : Branch :=
  let input_ids := takeLastPy maxLength (prompt_input_ids ++ answer_input_ids)
  let attention_mask := takeLastPy maxLength
    (List.replicate (prompt_input_ids.length + answer_input_ids.length) (1 : ℤ))
  let padded_ids := rightPad tok.pad_token_id maxLength input_ids
  let padded_mask := rightPad 0 maxLength attention_mask
  let labels0 := maskPad tok.pad_token_id (maskPrompt prompt_input_ids.length padded_ids)
  let labels :=
    if cfg.dataset.add_eos_token_to_answer then
      match lastNonzeroIdx padded_mask with
      | some i => labels0.set i tok.eos_token_id
      | none => labels0
    else labels0
  { input_ids := takeLastPy cfg.tokenizer.max_length padded_ids
    attention_mask := takeLastPy cfg.tokenizer.max_length padded_mask
    labels := takeLastPy cfg.tokenizer.max_length labels }

/-- Modelled from the spec: the base dataset's `encode(tokenizer, text,
max_length, truncation_side)` (its module is not among the sources at
hand) encodes text to ids truncated to `max_length`; with
`truncation_side="right"` — the only side used here — the first
`max_length` tokens are kept.  `textIds` stands for the tokenization of
the text. -/
def encode (textIds : List ℤ) (maxLength : ℕ) : List ℤ :=
  textIds.take maxLength

/-- `get_answer_input_ids` for one response text: encode with budget
`max_length_answer - int(add_eos_token_to_answer)`, truncation side
right, then append the end-of-sequence token id when configured.  The
source builds the pair `(chosen, rejected)` by applying this to both
response texts. -/
def get_answer_input_ids (cfg : Cfg) (tok : Tokenizer) (textIds : List ℤ) : List ℤ :=
  let answer_input_id := encode textIds
    (cfg.tokenizer.max_length_answer -
      (if cfg.dataset.add_eos_token_to_answer then 1 else 0))
  if cfg.dataset.add_eos_token_to_answer then
    answer_input_id ++ [tok.eos_token_id]
  else answer_input_id

/-- The non-padded base context of `__getitem__`:
`sample["input_ids"][torch.argwhere(sample["attention_mask"]).view(-1)]`,
after the initial stripping of the trailing end-of-sequence token
(`sample[key] = sample[key][:-1]`) when `add_eos_token_to_answer` is set. -/
def promptContext (cfg : Cfg) (base_input_ids base_attention_mask : List ℤ) : List ℤ :=
  let ids := if cfg.dataset.add_eos_token_to_answer
    then base_input_ids.dropLast else base_input_ids
  let mask := if cfg.dataset.add_eos_token_to_answer
    then base_attention_mask.dropLast else base_attention_mask
  ((ids.zip mask).filter (fun p => p.2 ≠ 0)).map Prod.fst

/-- The shared target length of `__getitem__`:
`max([len(chosen)+len(ctx), len(rejected)+len(ctx), cfg.tokenizer.max_length])`. -/
def dpoSharedLength (cfg : Cfg) (tok : Tokenizer)
    (base_input_ids base_attention_mask chosenText rejectedText : List ℤ) : ℕ :=
  let ctx := promptContext cfg base_input_ids base_attention_mask
  max ((get_answer_input_ids cfg tok chosenText).length + ctx.length)
    (max ((get_answer_input_ids cfg tok rejectedText).length + ctx.length)
      cfg.tokenizer.max_length)

/-- `__getitem__`: given the base sample's `input_ids`/`attention_mask`
and the tokenizations of the chosen and rejected response texts, emit the
`chosen_*` and `rejected_*` branches. -/
def dpoGetItem (cfg : Cfg) (tok : Tokenizer)
    (base_input_ids base_attention_mask chosenText rejectedText : List ℤ) :
    Branch × Branch :=
  let ctx := promptContext cfg base_input_ids base_attention_mask
  let maxLength := dpoSharedLength cfg tok base_input_ids base_attention_mask
    chosenText rejectedText
  (create_concatenated_inputs_and_labels cfg tok ctx
      (get_answer_input_ids cfg tok chosenText) maxLength,
   create_concatenated_inputs_and_labels cfg tok ctx
      (get_answer_input_ids cfg tok rejectedText) maxLength)

/-- The response columns of the input frame. -/
structure DataFrame where
  chosenResponses : List String
  rejectedResponses : List String

/-- The constructed dataset state relevant here: the two response-text
columns read in `__init__` (after the construction-time assertion). -/
structure DpoDataset where
  chosen_answers : List String
  rejected_answer : List String

/-- `CustomDataset.__init__`: asserts `cfg.dataset.limit_chained_samples`
before anything else, then builds the dataset.  The base constructor is
not among the sources at hand; modelled from the spec: on a well-formed
frame it succeeds, so construction succeeds exactly when the flag is set. -/
def mkCustomDataset (cfg : Cfg) (df : DataFrame) : Except String DpoDataset :=
  if cfg.dataset.limit_chained_samples then
    Except.ok { chosen_answers := df.chosenResponses
                rejected_answer := df.rejectedResponses }
  else
    Except.error "Need to enable limit_chained_samples for dpo training"

theorem seqLogps_congr (logits logits' : List (List ℝ)) (labels : List ℤ)
    (hlen : logits.length = logits'.length)
    (h : ∀ i, labels.getD i (-100) ≠ -100 → logits.getD i [] = logits'.getD i []) :
    seqLogps logits labels = seqLogps logits' labels := by
  induction labels generalizing logits logits' with
  | nil => simp [seqLogps]
  | cons l ls ih =>
    cases logits with
    | nil =>
      cases logits' with
      | nil => rfl
      | cons r rs => simp at hlen
    | cons r rs =>
      cases logits' with
      | nil => simp at hlen
      | cons r' rs' =>
        simp only [seqLogps, List.zip_cons_cons, List.map_cons, List.sum_cons]
        have htail : seqLogps rs ls = seqLogps rs' ls := by
          apply ih
          · simpa using hlen
          · intro i hi
            have := h (i + 1) (by simpa using hi)
            simpa using this
        simp only [seqLogps] at htail
        rw [htail]
        by_cases hl : l = -100
        · simp [hl]
        · have hr : r = r' := by
            have := h 0 (by simpa using hl)
            simpa using this
          simp [hl, hr]

/-- C1: for logits and labels of matching batch shape, if the logits rows
agree at every position whose label is not the ignore sentinel `-100`
(they may differ arbitrarily, however extremely, at ignored positions),
then `get_batch_logps` returns exactly the same per-sequence sums. -/
theorem c1_get_batch_logps_mask_invariant
    (logits logits' : List (List (List ℝ))) (labels : List (List ℤ))
    (hlen : logits.length = logits'.length)
    (hrow : ∀ b, (logits.getD b []).length = (logits'.getD b []).length)
    (h : ∀ b i, ((labels.getD b []).getD i (-100)) ≠ -100 →
      (logits.getD b []).getD i [] = (logits'.getD b []).getD i []) :
    get_batch_logps logits labels = get_batch_logps logits' labels := by
  induction labels generalizing logits logits' with
  | nil => simp [get_batch_logps]
  | cons l ls ih =>
    cases logits with
    | nil =>
      cases logits' with
      | nil => rfl
      | cons r rs => simp at hlen
    | cons r rs =>
      cases logits' with
      | nil => simp at hlen
      | cons r' rs' =>
        simp only [get_batch_logps, List.zip_cons_cons, List.map_cons]
        have hhead : seqLogps r l = seqLogps r' l := by
          apply seqLogps_congr
          · simpa using hrow 0
          · intro i hi
            simpa using h 0 i (by simpa using hi)
        have htail : get_batch_logps rs ls = get_batch_logps rs' ls := by
          apply ih
          · simpa using hlen
          · intro b
            simpa using hrow (b + 1)
          · intro b i hi
            simpa using h (b + 1) i (by simpa using hi)
        simp only [get_batch_logps] at htail
        rw [hhead, htail]

/-- C1 witness: a concrete batch where the second position is ignored; its
logits row is replaced by a very different row and the result is unchanged. -/
theorem c1_get_batch_logps_mask_invariant_witness :
    get_batch_logps [[[1, 2], [3, 4]]] [[0, -100]]
      = get_batch_logps [[[1, 2], [1000, -1000]]] [[0, -100]] :=
  c1_get_batch_logps_mask_invariant _ _ _
    rfl
    (fun b => match b with
      | 0 => rfl
      | _ + 1 => rfl)
    (fun b i hi => match b, i with
      | 0, 0 => rfl
      | 0, 1 => absurd (by decide) hi
      | 0, _ + 2 => by simp at hi
      | _ + 1, _ => by simp at hi)

/-! ### Basic lemmas about the slicing and masking primitives -/

theorem takeLastPy_of_le {n : ℕ} {l : List ℤ} (h : l.length ≤ n) :
    takeLastPy n l = l := by
  unfold takeLastPy
  split
  · rfl
  · rw [Nat.sub_eq_zero_of_le h, List.drop_zero]

theorem takeLastPy_eq_drop (n : ℕ) (l : List ℤ) :
    takeLastPy n l = l.drop (if n = 0 then 0 else l.length - n) := by
  unfold takeLastPy
  split <;> simp_all

theorem length_takeLastPy {n : ℕ} {l : List ℤ} (h0 : n ≠ 0) (h : n ≤ l.length) :
    (takeLastPy n l).length = n := by
  unfold takeLastPy
  rw [if_neg h0, List.length_drop]
  omega

theorem length_rightPad (pad : ℤ) (n : ℕ) (l : List ℤ) :
    (rightPad pad n l).length = n := by
  unfold rightPad
  rw [List.length_append, List.length_take, List.length_replicate]
  omega

theorem rightPad_of_le {pad : ℤ} {n : ℕ} {l : List ℤ} (h : l.length ≤ n) :
    rightPad pad n l = l ++ List.replicate (n - l.length) pad := by
  unfold rightPad
  rw [List.take_of_length_le h]

theorem length_maskPrompt (p : ℕ) (l : List ℤ) :
    (maskPrompt p l).length = l.length := by
  induction l generalizing p with
  | nil => simp [maskPrompt]
  | cons x xs ih =>
    cases p with
    | zero => simp [maskPrompt]
    | succ q => simpa [maskPrompt] using ih q

theorem length_maskPad (pad : ℤ) (l : List ℤ) :
    (maskPad pad l).length = l.length := by
  unfold maskPad
  exact List.length_map l _

theorem maskPrompt_getElem? (p : ℕ) (l : List ℤ) (i : ℕ) :
    (maskPrompt p l)[i]? = l[i]?.map (fun x => if i < p then -100 else x) := by
  induction l generalizing p i with
  | nil => simp [maskPrompt]
  | cons x xs ih =>
    cases p with
    | zero => simp [maskPrompt]
    | succ q =>
      cases i with
      | zero => simp [maskPrompt]
      | succ j => simpa [maskPrompt] using ih q j

theorem maskPad_getElem? (pad : ℤ) (l : List ℤ) (i : ℕ) :
    (maskPad pad l)[i]? = l[i]?.map (fun x => if x = pad then -100 else x) := by
  unfold maskPad
  exact List.getElem?_map _ l i

theorem drop_replicate_append (a b : ℤ) (m k d : ℕ) :
    (List.replicate m a ++ List.replicate k b).drop d =
      List.replicate (m - d) a ++ List.replicate (k - (d - m)) b := by
  rw [List.drop_append_eq_append_drop, List.drop_replicate, List.drop_replicate,
    List.length_replicate]

theorem getD_ones_zeros (m k i : ℕ) :
    (List.replicate m (1 : ℤ) ++ List.replicate k 0).getD i 0 =
      if i < m then 1 else 0 := by
  rw [List.getD_eq_getElem?_getD]
  by_cases h : i < m
  · rw [List.getElem?_append_left (by simpa using h), if_pos h]
    simp [List.getElem?_replicate, h]
  · rw [List.getElem?_append_right (by simpa using h), if_neg h,
      List.getElem?_replicate]
    split <;> rfl

theorem lastNonzeroIdx_ones_zeros (m k : ℕ) :
    lastNonzeroIdx (List.replicate m (1 : ℤ) ++ List.replicate k 0) =
      if m = 0 then none else some (m - 1) := by
  unfold lastNonzeroIdx
  have hlen : (List.replicate m (1 : ℤ) ++ List.replicate k 0).length = m + k := by
    simp
  rw [hlen, List.range_add, List.filter_append]
  have h1 : (List.range m).filter
      (fun i => decide ((List.replicate m (1 : ℤ) ++ List.replicate k 0).getD i 0 ≠ 0))
        = List.range m := by
    rw [List.filter_eq_self]
    intro a ha
    rw [List.mem_range] at ha
    rw [decide_eq_true_eq, getD_ones_zeros, if_pos ha]
    decide
  have h2 : ((List.range k).map (m + ·)).filter
      (fun i => decide ((List.replicate m (1 : ℤ) ++ List.replicate k 0).getD i 0 ≠ 0))
        = [] := by
    rw [List.filter_eq_nil_iff]
    intro a ha
    rcases List.mem_map.mp ha with ⟨j, _, rfl⟩
    rw [decide_eq_true_eq, getD_ones_zeros, if_neg (by omega)]
    simp
  rw [h1, h2, List.append_nil]
  cases m with
  | zero => simp
  | succ t =>
    rw [List.range_succ, List.getLast?_concat]
    simp

/-! ### Characterization of `create_concatenated_inputs_and_labels`

At every call site `maxLength` is at least `len(prompt) + len(answer)`, so
the first `[-max_length:]` slice keeps everything and the three fields
before the final truncation are simple concatenations. -/

theorem create_input_ids_eq (cfg : Cfg) (tok : Tokenizer) (prompt answer : List ℤ)
    (maxLength : ℕ) (h : prompt.length + answer.length ≤ maxLength) :
    (create_concatenated_inputs_and_labels cfg tok prompt answer maxLength).input_ids =
      takeLastPy cfg.tokenizer.max_length
        ((prompt ++ answer) ++
          List.replicate (maxLength - (prompt.length + answer.length)) tok.pad_token_id) := by
  simp only [create_concatenated_inputs_and_labels]
  rw [takeLastPy_of_le (n := maxLength) (l := prompt ++ answer) (by simpa using h)]
  rw [rightPad_of_le (l := prompt ++ answer) (by simpa using h)]
  rw [List.length_append]

theorem create_attention_mask_eq (cfg : Cfg) (tok : Tokenizer)
    (prompt answer : List ℤ) (maxLength : ℕ)
    (h : prompt.length + answer.length ≤ maxLength) :
    (create_concatenated_inputs_and_labels cfg tok prompt answer
        maxLength).attention_mask =
      takeLastPy cfg.tokenizer.max_length
        (List.replicate (prompt.length + answer.length) 1 ++
          List.replicate (maxLength - (prompt.length + answer.length)) 0) := by
  simp only [create_concatenated_inputs_and_labels]
  rw [takeLastPy_of_le (n := maxLength)
    (l := List.replicate (prompt.length + answer.length) 1) (by simpa using h)]
  rw [rightPad_of_le (l := List.replicate (prompt.length + answer.length) 1)
    (by simpa using h)]
  rw [List.length_replicate]

theorem create_labels_eq_noEos (cfg : Cfg) (tok : Tokenizer)
    (prompt answer : List ℤ) (maxLength : ℕ)
    (hEos : cfg.dataset.add_eos_token_to_answer = false)
    (h : prompt.length + answer.length ≤ maxLength) :
    (create_concatenated_inputs_and_labels cfg tok prompt answer maxLength).labels =
      takeLastPy cfg.tokenizer.max_length
        (maskPad tok.pad_token_id (maskPrompt prompt.length
          ((prompt ++ answer) ++
            List.replicate (maxLength - (prompt.length + answer.length))
              tok.pad_token_id))) := by
  simp only [create_concatenated_inputs_and_labels]
  rw [takeLastPy_of_le (n := maxLength) (l := prompt ++ answer) (by simpa using h)]
  rw [rightPad_of_le (l := prompt ++ answer) (by simpa using h)]
  rw [List.length_append]
  simp [hEos]

theorem create_labels_eq_eos (cfg : Cfg) (tok : Tokenizer)
    (prompt answer : List ℤ) (maxLength : ℕ)
    (hEos : cfg.dataset.add_eos_token_to_answer = true)
    (hne : answer ≠ []) (h : prompt.length + answer.length ≤ maxLength) :
    (create_concatenated_inputs_and_labels cfg tok prompt answer maxLength).labels =
      takeLastPy cfg.tokenizer.max_length
        ((maskPad tok.pad_token_id (maskPrompt prompt.length
          ((prompt ++ answer) ++
            List.replicate (maxLength - (prompt.length + answer.length))
              tok.pad_token_id))).set
          (prompt.length + answer.length - 1) tok.eos_token_id) := by
  simp only [create_concatenated_inputs_and_labels]
  rw [takeLastPy_of_le (n := maxLength) (l := prompt ++ answer) (by simpa using h)]
  rw [takeLastPy_of_le (n := maxLength)
    (l := List.replicate (prompt.length + answer.length) 1) (by simpa using h)]
  rw [rightPad_of_le (l := prompt ++ answer) (by simpa using h)]
  rw [@rightPad_of_le 0 maxLength
    (List.replicate (prompt.length + answer.length) 1) (by simpa using h)]
  have hne' : prompt.length + answer.length ≠ 0 := by
    have := List.length_pos.mpr hne
    omega
  rw [List.length_append, List.length_replicate]
  simp only [hEos, if_true, lastNonzeroIdx_ones_zeros, if_neg hne']

theorem create_input_ids_length (cfg : Cfg) (tok : Tokenizer)
    (prompt answer : List ℤ) (maxLength : ℕ)
    (h0 : cfg.tokenizer.max_length ≠ 0) (h2 : cfg.tokenizer.max_length ≤ maxLength) :
    (create_concatenated_inputs_and_labels cfg tok prompt answer
      maxLength).input_ids.length = cfg.tokenizer.max_length := by
  simp only [create_concatenated_inputs_and_labels]
  exact length_takeLastPy h0 (by rw [length_rightPad]; exact h2)

theorem create_attention_mask_length (cfg : Cfg) (tok : Tokenizer)
    (prompt answer : List ℤ) (maxLength : ℕ)
    (h0 : cfg.tokenizer.max_length ≠ 0) (h2 : cfg.tokenizer.max_length ≤ maxLength) :
    (create_concatenated_inputs_and_labels cfg tok prompt answer
      maxLength).attention_mask.length = cfg.tokenizer.max_length := by
  simp only [create_concatenated_inputs_and_labels]
  exact length_takeLastPy h0 (by rw [length_rightPad]; exact h2)

theorem create_labels_length (cfg : Cfg) (tok : Tokenizer)
    (prompt answer : List ℤ) (maxLength : ℕ)
    (h0 : cfg.tokenizer.max_length ≠ 0) (h2 : cfg.tokenizer.max_length ≤ maxLength) :
    (create_concatenated_inputs_and_labels cfg tok prompt answer
      maxLength).labels.length = cfg.tokenizer.max_length := by
  simp only [create_concatenated_inputs_and_labels]
  have hbase : (maskPad tok.pad_token_id (maskPrompt prompt.length
      (rightPad tok.pad_token_id maxLength
        (takeLastPy maxLength (prompt ++ answer))))).length = maxLength := by
    rw [length_maskPad, length_maskPrompt, length_rightPad]
  apply length_takeLastPy h0
  split
  · split
    · rw [List.length_set, hbase]; exact h2
    · rw [hbase]; exact h2
  · rw [hbase]; exact h2

theorem dpoGetItem_fst (cfg : Cfg) (tok : Tokenizer)
    (bi bm ct rt : List ℤ) :
    (dpoGetItem cfg tok bi bm ct rt).1 =
      create_concatenated_inputs_and_labels cfg tok (promptContext cfg bi bm)
        (get_answer_input_ids cfg tok ct) (dpoSharedLength cfg tok bi bm ct rt) :=
  rfl

theorem dpoGetItem_snd (cfg : Cfg) (tok : Tokenizer)
    (bi bm ct rt : List ℤ) :
    (dpoGetItem cfg tok bi bm ct rt).2 =
      create_concatenated_inputs_and_labels cfg tok (promptContext cfg bi bm)
        (get_answer_input_ids cfg tok rt) (dpoSharedLength cfg tok bi bm ct rt) :=
  rfl

theorem le_dpoSharedLength (cfg : Cfg) (tok : Tokenizer) (bi bm ct rt : List ℤ) :
    cfg.tokenizer.max_length ≤ dpoSharedLength cfg tok bi bm ct rt := by
  simp only [dpoSharedLength]
  exact le_trans (Nat.le_max_right _ _) (Nat.le_max_right _ _)

theorem prompt_chosen_le_dpoSharedLength (cfg : Cfg) (tok : Tokenizer)
    (bi bm ct rt : List ℤ) :
    (promptContext cfg bi bm).length + (get_answer_input_ids cfg tok ct).length ≤
      dpoSharedLength cfg tok bi bm ct rt := by
  simp only [dpoSharedLength]
  rw [Nat.add_comm]
  exact Nat.le_max_left _ _

theorem prompt_rejected_le_dpoSharedLength (cfg : Cfg) (tok : Tokenizer)
    (bi bm ct rt : List ℤ) :
    (promptContext cfg bi bm).length + (get_answer_input_ids cfg tok rt).length ≤
      dpoSharedLength cfg tok bi bm ct rt := by
  simp only [dpoSharedLength]
  rw [Nat.add_comm]
  exact le_trans (Nat.le_max_left _ _) (Nat.le_max_right _ _)

/-! ### Claim theorems about the dataset -/

/-- C2: for every base sample and any chosen/rejected tokenizations
(including answers longer than the configured tokenizer max length), each
of the six emitted lists `chosen_input_ids`, `chosen_attention_mask`,
`chosen_labels`, `rejected_input_ids`, `rejected_attention_mask`,
`rejected_labels` has length exactly `cfg.tokenizer.max_length` (the
configured max length being positive). -/
theorem c2_emitted_lengths (cfg : Cfg) (tok : Tokenizer) (bi bm ct rt : List ℤ)
    (h0 : 0 < cfg.tokenizer.max_length) :
    (dpoGetItem cfg tok bi bm ct rt).1.input_ids.length = cfg.tokenizer.max_length ∧
    (dpoGetItem cfg tok bi bm ct rt).1.attention_mask.length = cfg.tokenizer.max_length ∧
    (dpoGetItem cfg tok bi bm ct rt).1.labels.length = cfg.tokenizer.max_length ∧
    (dpoGetItem cfg tok bi bm ct rt).2.input_ids.length = cfg.tokenizer.max_length ∧
    (dpoGetItem cfg tok bi bm ct rt).2.attention_mask.length = cfg.tokenizer.max_length ∧
    (dpoGetItem cfg tok bi bm ct rt).2.labels.length = cfg.tokenizer.max_length := by
  rw [dpoGetItem_fst, dpoGetItem_snd]
  have h0' : cfg.tokenizer.max_length ≠ 0 := Nat.pos_iff_ne_zero.mp h0
  have h2 := le_dpoSharedLength cfg tok bi bm ct rt
  exact ⟨create_input_ids_length _ _ _ _ _ h0' h2,
    create_attention_mask_length _ _ _ _ _ h0' h2,
    create_labels_length _ _ _ _ _ h0' h2,
    create_input_ids_length _ _ _ _ _ h0' h2,
    create_attention_mask_length _ _ _ _ _ h0' h2,
    create_labels_length _ _ _ _ _ h0' h2⟩

/-- C2 witness: concrete instance with max length 10, a 5-token context,
a 3-token chosen answer and a 7-token rejected answer. -/
theorem c2_emitted_lengths_witness :
    (0 : ℕ) <
      ({ dataset := { add_eos_token_to_answer := false, limit_chained_samples := true },
         tokenizer := { max_length := 10, max_length_answer := 100 } } : Cfg).tokenizer.max_length ∧
    (dpoGetItem
      { dataset := { add_eos_token_to_answer := false, limit_chained_samples := true },
        tokenizer := { max_length := 10, max_length_answer := 100 } }
      { pad_token_id := 0, eos_token_id := 99 }
      [1, 2, 3, 4, 5] [1, 1, 1, 1, 1] [11, 12, 13]
      [21, 22, 23, 24, 25, 26, 27]).1.input_ids.length = 10 :=
  ⟨by decide,
    (c2_emitted_lengths _ _ _ _ _ _ (by decide)).1⟩

/-- C3: `__getitem__` computes, per sample, a single shared target length
equal to `max(len(prompt_context) + len(chosen_ids),
len(prompt_context) + len(rejected_ids), cfg.tokenizer.max_length)`, where
the prompt context is the mask-selected non-padded prefix of the base
sample, and this length is never below the configured tokenizer max
length. -/
theorem c3_shared_length (cfg : Cfg) (tok : Tokenizer) (bi bm ct rt : List ℤ) :
    dpoSharedLength cfg tok bi bm ct rt =
      max ((promptContext cfg bi bm).length + (get_answer_input_ids cfg tok ct).length)
        (max ((promptContext cfg bi bm).length + (get_answer_input_ids cfg tok rt).length)
          cfg.tokenizer.max_length) ∧
    cfg.tokenizer.max_length ≤ dpoSharedLength cfg tok bi bm ct rt := by
  constructor
  · simp only [dpoSharedLength]
    rw [Nat.add_comm ((get_answer_input_ids cfg tok ct).length) _,
      Nat.add_comm ((get_answer_input_ids cfg tok rt).length) _]
  · exact le_dpoSharedLength cfg tok bi bm ct rt

/-- C4 counterexample: in the spec's end-to-end example (prompt context of
5 tokens, chosen answer of 3 ids, rejected answer of 7 ids, tokenizer max
length 10, pad id 0), the emitted chosen sequence contains 4 pad tokens
after 6 surviving real tokens — not 2 pad tokens after 8 real tokens as
claimed: truncation to the last 10 of the 12 padded positions drops 2
real prompt tokens but none of the 4 pads. -/
theorem c4_counterexample :
    (dpoGetItem
      { dataset := { add_eos_token_to_answer := false, limit_chained_samples := true },
        tokenizer := { max_length := 10, max_length_answer := 100 } }
      { pad_token_id := 0, eos_token_id := 99 }
      [1, 2, 3, 4, 5] [1, 1, 1, 1, 1] [11, 12, 13]
      [21, 22, 23, 24, 25, 26, 27]).1.input_ids.count 0 = 4 ∧
    ¬ ((dpoGetItem
      { dataset := { add_eos_token_to_answer := false, limit_chained_samples := true },
        tokenizer := { max_length := 10, max_length_answer := 100 } }
      { pad_token_id := 0, eos_token_id := 99 }
      [1, 2, 3, 4, 5] [1, 1, 1, 1, 1] [11, 12, 13]
      [21, 22, 23, 24, 25, 26, 27]).1.input_ids.count 0 = 2) ∧
    (dpoGetItem
      { dataset := { add_eos_token_to_answer := false, limit_chained_samples := true },
        tokenizer := { max_length := 10, max_length_answer := 100 } }
      { pad_token_id := 0, eos_token_id := 99 }
      [1, 2, 3, 4, 5] [1, 1, 1, 1, 1] [11, 12, 13]
      [21, 22, 23, 24, 25, 26, 27]).1.attention_mask.count 1 = 6 ∧
    ¬ ((dpoGetItem
      { dataset := { add_eos_token_to_answer := false, limit_chained_samples := true },
        tokenizer := { max_length := 10, max_length_answer := 100 } }
      { pad_token_id := 0, eos_token_id := 99 }
      [1, 2, 3, 4, 5] [1, 1, 1, 1, 1] [11, 12, 13]
      [21, 22, 23, 24, 25, 26, 27]).1.attention_mask.count 1 = 8) := by
  decide

/-- C4 amended: with prompt context of 5 tokens, chosen answer of 3 ids,
rejected answer of 7 ids and tokenizer max length 10, the shared target
length is `L = max(5+3, 5+7, 10) = 12`, both final outputs keep the last
10 positions (dropping the earliest 2 prompt tokens), the chosen sequence
holds its 6 surviving real tokens followed by 4 pad tokens, and the
rejected sequence fully occupies all 10 positions with no padding. -/
theorem c4_amended :
    dpoSharedLength
      { dataset := { add_eos_token_to_answer := false, limit_chained_samples := true },
        tokenizer := { max_length := 10, max_length_answer := 100 } }
      { pad_token_id := 0, eos_token_id := 99 }
      [1, 2, 3, 4, 5] [1, 1, 1, 1, 1] [11, 12, 13] [21, 22, 23, 24, 25, 26, 27] = 12 ∧
    (dpoGetItem
      { dataset := { add_eos_token_to_answer := false, limit_chained_samples := true },
        tokenizer := { max_length := 10, max_length_answer := 100 } }
      { pad_token_id := 0, eos_token_id := 99 }
      [1, 2, 3, 4, 5] [1, 1, 1, 1, 1] [11, 12, 13] [21, 22, 23, 24, 25, 26, 27]).1 =
      { input_ids := [3, 4, 5, 11, 12, 13, 0, 0, 0, 0],
        attention_mask := [1, 1, 1, 1, 1, 1, 0, 0, 0, 0],
        labels := [-100, -100, -100, 11, 12, 13, -100, -100, -100, -100] } ∧
    (dpoGetItem
      { dataset := { add_eos_token_to_answer := false, limit_chained_samples := true },
        tokenizer := { max_length := 10, max_length_answer := 100 } }
      { pad_token_id := 0, eos_token_id := 99 }
      [1, 2, 3, 4, 5] [1, 1, 1, 1, 1] [11, 12, 13] [21, 22, 23, 24, 25, 26, 27]).2 =
      { input_ids := [3, 4, 5, 21, 22, 23, 24, 25, 26, 27],
        attention_mask := [1, 1, 1, 1, 1, 1, 1, 1, 1, 1],
        labels := [-100, -100, -100, 21, 22, 23, 24, 25, 26, 27] } := by
  decide

theorem get_answer_ne_nil (cfg : Cfg) (tok : Tokenizer) (t : List ℤ)
    (hEos : cfg.dataset.add_eos_token_to_answer = true) :
    get_answer_input_ids cfg tok t ≠ [] := by
  simp only [get_answer_input_ids, hEos, if_true]
  exact List.append_ne_nil_of_right_ne_nil _ (by simp)

theorem get_answer_getLast (cfg : Cfg) (tok : Tokenizer) (t : List ℤ)
    (hEos : cfg.dataset.add_eos_token_to_answer = true) :
    (get_answer_input_ids cfg tok t).getLast? = some tok.eos_token_id := by
  simp only [get_answer_input_ids, hEos, if_true]
  exact List.getLast?_concat _

theorem maskPad_maskPrompt_getElem?_lt (pad : ℤ) (p : ℕ) (big : List ℤ) (j : ℕ)
    (hj : j < p) (hlen : j < big.length) :
    (maskPad pad (maskPrompt p big))[j]? = some (-100) := by
  rw [maskPad_getElem?, maskPrompt_getElem?, List.getElem?_eq_getElem hlen]
  simp [hj]

theorem maskPad_maskPrompt_length (pad : ℤ) (p : ℕ) (big : List ℤ) :
    (maskPad pad (maskPrompt p big)).length = big.length := by
  rw [length_maskPad, length_maskPrompt]

theorem big_length (tok : Tokenizer) (prompt answer : List ℤ) (maxLength : ℕ)
    (h : prompt.length + answer.length ≤ maxLength) :
    ((prompt ++ answer) ++
      List.replicate (maxLength - (prompt.length + answer.length))
        tok.pad_token_id).length = maxLength := by
  simp
  omega

theorem create_labels_prompt_ignore (cfg : Cfg) (tok : Tokenizer)
    (prompt answer : List ℤ) (maxLength : ℕ)
    (h1 : prompt.length + answer.length ≤ maxLength)
    (hA : cfg.dataset.add_eos_token_to_answer = true → answer ≠ []) :
    ∀ i, i + (maxLength - cfg.tokenizer.max_length) < prompt.length →
      (create_concatenated_inputs_and_labels cfg tok prompt answer
        maxLength).labels.getD i (-100) = -100 := by
  intro i hi
  have hbig := big_length tok prompt answer maxLength h1
  by_cases hEos : cfg.dataset.add_eos_token_to_answer = true
  · rw [create_labels_eq_eos cfg tok prompt answer maxLength hEos (hA hEos) h1]
    rw [takeLastPy_eq_drop, List.getD_eq_getElem?_getD, List.getElem?_drop]
    have hAnz : answer.length ≠ 0 :=
      fun h0 => hA hEos (List.length_eq_zero.mp h0)
    have hlen : ((maskPad tok.pad_token_id (maskPrompt prompt.length
        ((prompt ++ answer) ++
          List.replicate (maxLength - (prompt.length + answer.length))
            tok.pad_token_id))).set
        (prompt.length + answer.length - 1) tok.eos_token_id).length = maxLength := by
      rw [List.length_set, maskPad_maskPrompt_length, hbig]
    rw [hlen]
    set D := if cfg.tokenizer.max_length = 0 then 0
      else maxLength - cfg.tokenizer.max_length with hD
    have hDP : D + i < prompt.length := by
      rw [hD]
      split <;> omega
    rw [List.getElem?_set_ne (by omega)]
    rw [maskPad_maskPrompt_getElem?_lt _ _ _ _ hDP (by omega)]
    rfl
  · rw [create_labels_eq_noEos cfg tok prompt answer maxLength
      (Bool.not_eq_true _ ▸ hEos) h1]
    rw [takeLastPy_eq_drop, List.getD_eq_getElem?_getD, List.getElem?_drop]
    rw [maskPad_maskPrompt_length, hbig]
    set D := if cfg.tokenizer.max_length = 0 then 0
      else maxLength - cfg.tokenizer.max_length with hD
    have hDP : D + i < prompt.length := by
      rw [hD]
      split <;> omega
    rw [maskPad_maskPrompt_getElem?_lt _ _ _ _ hDP (by omega)]
    rfl

/-- C5 counterexample: in a sample whose shared length 12 exceeds the
configured max length 10, the emitted chosen labels are not all `-100`
within the prompt-context length 5 — position 3 already holds an answer
token, because the final truncation dropped 2 leading prompt positions. -/
theorem c5_counterexample :
    (promptContext
      { dataset := { add_eos_token_to_answer := false, limit_chained_samples := true },
        tokenizer := { max_length := 10, max_length_answer := 100 } }
      [1, 2, 3, 4, 5] [1, 1, 1, 1, 1]).length = 5 ∧
    ¬ (∀ i < 5, (dpoGetItem
      { dataset := { add_eos_token_to_answer := false, limit_chained_samples := true },
        tokenizer := { max_length := 10, max_length_answer := 100 } }
      { pad_token_id := 0, eos_token_id := 99 }
      [1, 2, 3, 4, 5] [1, 1, 1, 1, 1] [11, 12, 13]
      [21, 22, 23, 24, 25, 26, 27]).1.labels.getD i (-100) = -100) := by
  decide

/-- C5 amended: for both branches, all positions within the shared
prompt-context length carry the ignore label in the padded length-`L`
sequences; in the emitted (truncated) pair this means the label is `-100`
at every position `i` with `i + (L - max_length)` still inside the
prompt context, i.e. at every surviving prompt position. -/
theorem c5_prompt_labels_ignore (cfg : Cfg) (tok : Tokenizer)
    (bi bm ct rt : List ℤ) :
    ∀ i,
      (i + (dpoSharedLength cfg tok bi bm ct rt - cfg.tokenizer.max_length) <
          (promptContext cfg bi bm).length →
        (dpoGetItem cfg tok bi bm ct rt).1.labels.getD i (-100) = -100) ∧
      (i + (dpoSharedLength cfg tok bi bm ct rt - cfg.tokenizer.max_length) <
          (promptContext cfg bi bm).length →
        (dpoGetItem cfg tok bi bm ct rt).2.labels.getD i (-100) = -100) := by
  intro i
  constructor
  · intro hi
    rw [dpoGetItem_fst]
    exact create_labels_prompt_ignore cfg tok _ _ _
      (prompt_chosen_le_dpoSharedLength cfg tok bi bm ct rt)
      (fun hEos => get_answer_ne_nil cfg tok ct hEos) i hi
  · intro hi
    rw [dpoGetItem_snd]
    exact create_labels_prompt_ignore cfg tok _ _ _
      (prompt_rejected_le_dpoSharedLength cfg tok bi bm ct rt)
      (fun hEos => get_answer_ne_nil cfg tok rt hEos) i hi

/-- C5 amended witness: in the concrete truncated sample, position 0
survives inside the prompt context and its chosen label is `-100`. -/
theorem c5_prompt_labels_ignore_witness :
    0 + (dpoSharedLength
      { dataset := { add_eos_token_to_answer := false, limit_chained_samples := true },
        tokenizer := { max_length := 10, max_length_answer := 100 } }
      { pad_token_id := 0, eos_token_id := 99 }
      [1, 2, 3, 4, 5] [1, 1, 1, 1, 1] [11, 12, 13] [21, 22, 23, 24, 25, 26, 27] -
        10) < (promptContext
      { dataset := { add_eos_token_to_answer := false, limit_chained_samples := true },
        tokenizer := { max_length := 10, max_length_answer := 100 } }
      [1, 2, 3, 4, 5] [1, 1, 1, 1, 1]).length ∧
    (dpoGetItem
      { dataset := { add_eos_token_to_answer := false, limit_chained_samples := true },
        tokenizer := { max_length := 10, max_length_answer := 100 } }
      { pad_token_id := 0, eos_token_id := 99 }
      [1, 2, 3, 4, 5] [1, 1, 1, 1, 1] [11, 12, 13]
      [21, 22, 23, 24, 25, 26, 27]).1.labels.getD 0 (-100) = -100 :=
  ⟨by decide,
    (c5_prompt_labels_ignore _ _ _ _ _ _ 0).1 (by decide)⟩

theorem create_labels_eos_at_last (cfg : Cfg) (tok : Tokenizer)
    (prompt answer : List ℤ) (maxLength : ℕ)
    (hEos : cfg.dataset.add_eos_token_to_answer = true)
    (hne : answer ≠ []) (h1 : prompt.length + answer.length ≤ maxLength) :
    ∀ j, lastNonzeroIdx (create_concatenated_inputs_and_labels cfg tok prompt
        answer maxLength).attention_mask = some j →
      (create_concatenated_inputs_and_labels cfg tok prompt answer
        maxLength).labels.getD j (-100) = tok.eos_token_id := by
  intro j hj
  have hAnz : answer.length ≠ 0 := fun h0 => hne (List.length_eq_zero.mp h0)
  rw [create_attention_mask_eq cfg tok prompt answer maxLength h1] at hj
  rw [takeLastPy_eq_drop] at hj
  have hmask_len : (List.replicate (prompt.length + answer.length) (1 : ℤ) ++
      List.replicate (maxLength - (prompt.length + answer.length)) 0).length
        = maxLength := by
    simp
    omega
  rw [hmask_len] at hj
  set D := if cfg.tokenizer.max_length = 0 then 0
    else maxLength - cfg.tokenizer.max_length with hD
  rw [drop_replicate_append, lastNonzeroIdx_ones_zeros] at hj
  rw [create_labels_eq_eos cfg tok prompt answer maxLength hEos hne h1]
  rw [takeLastPy_eq_drop, List.getD_eq_getElem?_getD, List.getElem?_drop]
  have hlab_len : ((maskPad tok.pad_token_id (maskPrompt prompt.length
      ((prompt ++ answer) ++
        List.replicate (maxLength - (prompt.length + answer.length))
          tok.pad_token_id))).set
      (prompt.length + answer.length - 1) tok.eos_token_id).length = maxLength := by
    rw [List.length_set, maskPad_maskPrompt_length,
      big_length tok prompt answer maxLength h1]
  rw [hlab_len, ← hD]
  split at hj
  · exact absurd hj (by simp)
  · have hjeq : j = prompt.length + answer.length - D - 1 := by
      injection hj with hj'
      omega
    have hDm : D < prompt.length + answer.length := by omega
    have hidx : D + j = prompt.length + answer.length - 1 := by omega
    rw [hidx]
    rw [List.getElem?_set_self (by
      rw [maskPad_maskPrompt_length, big_length tok prompt answer maxLength h1]
      omega)]
    rfl

/-- C6: when `add_eos_token_to_answer` is enabled and the pad token id
equals the eos token id, then in each emitted branch the label at the
final position where the attention mask is nonzero is the end-of-sequence
token id, not the ignore sentinel. -/
theorem c6_eos_label_protected (cfg : Cfg) (tok : Tokenizer)
    (bi bm ct rt : List ℤ)
    (hEos : cfg.dataset.add_eos_token_to_answer = true)
    (_hpe : tok.pad_token_id = tok.eos_token_id)
    (hne100 : tok.eos_token_id ≠ -100) :
    ∀ j,
      (lastNonzeroIdx (dpoGetItem cfg tok bi bm ct rt).1.attention_mask = some j →
        (dpoGetItem cfg tok bi bm ct rt).1.labels.getD j (-100) = tok.eos_token_id ∧
        (dpoGetItem cfg tok bi bm ct rt).1.labels.getD j (-100) ≠ -100) ∧
      (lastNonzeroIdx (dpoGetItem cfg tok bi bm ct rt).2.attention_mask = some j →
        (dpoGetItem cfg tok bi bm ct rt).2.labels.getD j (-100) = tok.eos_token_id ∧
        (dpoGetItem cfg tok bi bm ct rt).2.labels.getD j (-100) ≠ -100) := by
  intro j
  constructor
  · intro hj
    rw [dpoGetItem_fst] at hj ⊢
    have := create_labels_eos_at_last cfg tok _ _ _ hEos
      (get_answer_ne_nil cfg tok ct hEos)
      (prompt_chosen_le_dpoSharedLength cfg tok bi bm ct rt) j hj
    exact ⟨this, this ▸ hne100⟩
  · intro hj
    rw [dpoGetItem_snd] at hj ⊢
    have := create_labels_eos_at_last cfg tok _ _ _ hEos
      (get_answer_ne_nil cfg tok rt hEos)
      (prompt_rejected_le_dpoSharedLength cfg tok bi bm ct rt) j hj
    exact ⟨this, this ▸ hne100⟩

/-- C6 witness: eos injection on, pad id equal to eos id 0; the chosen
branch's final nonzero-attention position is 6 and its label is 0, the
eos id. -/
theorem c6_eos_label_protected_witness :
    lastNonzeroIdx (dpoGetItem
      { dataset := { add_eos_token_to_answer := true, limit_chained_samples := true },
        tokenizer := { max_length := 10, max_length_answer := 4 } }
      { pad_token_id := 0, eos_token_id := 0 }
      [1, 2, 3, 0] [1, 1, 1, 1] [11, 12, 13, 14, 15] [21]).1.attention_mask
        = some 6 ∧
    (dpoGetItem
      { dataset := { add_eos_token_to_answer := true, limit_chained_samples := true },
        tokenizer := { max_length := 10, max_length_answer := 4 } }
      { pad_token_id := 0, eos_token_id := 0 }
      [1, 2, 3, 0] [1, 1, 1, 1] [11, 12, 13, 14, 15] [21]).1.labels.getD 6 (-100)
        = 0 :=
  ⟨by decide,
    ((c6_eos_label_protected _ _ _ _ _ _ (by decide) (by decide) (by decide) 6).1
      (by decide)).1⟩

theorem create_mask_structure (cfg : Cfg) (tok : Tokenizer)
    (prompt answer : List ℤ) (maxLength : ℕ)
    (h0 : cfg.tokenizer.max_length ≠ 0)
    (h2 : cfg.tokenizer.max_length ≤ maxLength)
    (h1 : prompt.length + answer.length ≤ maxLength) :
    (create_concatenated_inputs_and_labels cfg tok prompt answer
        maxLength).attention_mask =
      List.replicate
        ((prompt.length + answer.length) - (maxLength - cfg.tokenizer.max_length)) 1 ++
      List.replicate
        (cfg.tokenizer.max_length -
          ((prompt.length + answer.length) - (maxLength - cfg.tokenizer.max_length))) 0 := by
  rw [create_attention_mask_eq cfg tok prompt answer maxLength h1]
  rw [takeLastPy_eq_drop]
  have hmask_len : (List.replicate (prompt.length + answer.length) (1 : ℤ) ++
      List.replicate (maxLength - (prompt.length + answer.length)) 0).length
        = maxLength := by
    simp
    omega
  rw [hmask_len, if_neg h0, drop_replicate_append]
  have hz : (maxLength - (prompt.length + answer.length)) -
      ((maxLength - cfg.tokenizer.max_length) - (prompt.length + answer.length)) =
      cfg.tokenizer.max_length -
        ((prompt.length + answer.length) - (maxLength - cfg.tokenizer.max_length)) := by
    omega
  rw [hz]

theorem create_ids_pad_tail (cfg : Cfg) (tok : Tokenizer)
    (prompt answer : List ℤ) (maxLength : ℕ)
    (h0 : cfg.tokenizer.max_length ≠ 0)
    (h2 : cfg.tokenizer.max_length ≤ maxLength)
    (h1 : prompt.length + answer.length ≤ maxLength) :
    (create_concatenated_inputs_and_labels cfg tok prompt answer
        maxLength).input_ids.drop
        ((prompt.length + answer.length) - (maxLength - cfg.tokenizer.max_length)) =
      List.replicate
        (cfg.tokenizer.max_length -
          ((prompt.length + answer.length) - (maxLength - cfg.tokenizer.max_length)))
        tok.pad_token_id := by
  rw [create_input_ids_eq cfg tok prompt answer maxLength h1]
  rw [takeLastPy_eq_drop]
  have hids_len : ((prompt ++ answer) ++
      List.replicate (maxLength - (prompt.length + answer.length))
        tok.pad_token_id).length = maxLength :=
    big_length tok prompt answer maxLength h1
  rw [hids_len, if_neg h0, List.drop_drop, List.drop_append_eq_append_drop]
  rw [List.drop_eq_nil_of_le (by rw [List.length_append]; omega), List.nil_append,
    List.drop_replicate, List.length_append]
  have hz : (maxLength - (prompt.length + answer.length)) -
      ((maxLength - cfg.tokenizer.max_length) +
        ((prompt.length + answer.length) - (maxLength - cfg.tokenizer.max_length)) -
        (prompt.length + answer.length)) =
      cfg.tokenizer.max_length -
        ((prompt.length + answer.length) - (maxLength - cfg.tokenizer.max_length)) := by
    omega
  rw [hz]

/-- C7 counterexample: the emitted mask is not 1 exactly at positions
whose stored token differs from the pad id — a genuine answer token equal
to the pad id (id 0 here) sits at position 1 of the chosen branch with
attention 1, falsifying the claimed equivalence. -/
theorem c7_counterexample :
    (dpoGetItem
      { dataset := { add_eos_token_to_answer := false, limit_chained_samples := true },
        tokenizer := { max_length := 2, max_length_answer := 10 } }
      { pad_token_id := 0, eos_token_id := 99 }
      [1] [1] [0] [5]).1.input_ids.getD 1 0 = 0 ∧
    (dpoGetItem
      { dataset := { add_eos_token_to_answer := false, limit_chained_samples := true },
        tokenizer := { max_length := 2, max_length_answer := 10 } }
      { pad_token_id := 0, eos_token_id := 99 }
      [1] [1] [0] [5]).1.attention_mask.getD 1 0 = 1 ∧
    ¬ (∀ i < 2,
      ((dpoGetItem
        { dataset := { add_eos_token_to_answer := false, limit_chained_samples := true },
          tokenizer := { max_length := 2, max_length_answer := 10 } }
        { pad_token_id := 0, eos_token_id := 99 }
        [1] [1] [0] [5]).1.attention_mask.getD i 0 = 1 ↔
      (dpoGetItem
        { dataset := { add_eos_token_to_answer := false, limit_chained_samples := true },
          tokenizer := { max_length := 2, max_length_answer := 10 } }
        { pad_token_id := 0, eos_token_id := 99 }
        [1] [1] [0] [5]).1.input_ids.getD i 0 ≠ 0)) := by
  decide

/-- C7 amended: for each emitted branch the attention mask is a prefix of
1s followed by 0s — 1 exactly at the positions holding surviving real
(prompt or answer) tokens and 0 at the trailing padding positions, which
hold the pad token id.  (A real token may itself equal the pad id, so the
mask is not in general determined by comparing stored ids to the pad id.) -/
theorem c7_mask_structure (cfg : Cfg) (tok : Tokenizer) (bi bm ct rt : List ℤ)
    (h0 : 0 < cfg.tokenizer.max_length) :
    ((dpoGetItem cfg tok bi bm ct rt).1.attention_mask =
      List.replicate
        (((promptContext cfg bi bm).length + (get_answer_input_ids cfg tok ct).length) -
          (dpoSharedLength cfg tok bi bm ct rt - cfg.tokenizer.max_length)) 1 ++
      List.replicate
        (cfg.tokenizer.max_length -
          (((promptContext cfg bi bm).length + (get_answer_input_ids cfg tok ct).length) -
            (dpoSharedLength cfg tok bi bm ct rt - cfg.tokenizer.max_length))) 0 ∧
    (dpoGetItem cfg tok bi bm ct rt).1.input_ids.drop
        (((promptContext cfg bi bm).length + (get_answer_input_ids cfg tok ct).length) -
          (dpoSharedLength cfg tok bi bm ct rt - cfg.tokenizer.max_length)) =
      List.replicate
        (cfg.tokenizer.max_length -
          (((promptContext cfg bi bm).length + (get_answer_input_ids cfg tok ct).length) -
            (dpoSharedLength cfg tok bi bm ct rt - cfg.tokenizer.max_length)))
        tok.pad_token_id) ∧
    ((dpoGetItem cfg tok bi bm ct rt).2.attention_mask =
      List.replicate
        (((promptContext cfg bi bm).length + (get_answer_input_ids cfg tok rt).length) -
          (dpoSharedLength cfg tok bi bm ct rt - cfg.tokenizer.max_length)) 1 ++
      List.replicate
        (cfg.tokenizer.max_length -
          (((promptContext cfg bi bm).length + (get_answer_input_ids cfg tok rt).length) -
            (dpoSharedLength cfg tok bi bm ct rt - cfg.tokenizer.max_length))) 0 ∧
    (dpoGetItem cfg tok bi bm ct rt).2.input_ids.drop
        (((promptContext cfg bi bm).length + (get_answer_input_ids cfg tok rt).length) -
          (dpoSharedLength cfg tok bi bm ct rt - cfg.tokenizer.max_length)) =
      List.replicate
        (cfg.tokenizer.max_length -
          (((promptContext cfg bi bm).length + (get_answer_input_ids cfg tok rt).length) -
            (dpoSharedLength cfg tok bi bm ct rt - cfg.tokenizer.max_length)))
        tok.pad_token_id) := by
  have h0' : cfg.tokenizer.max_length ≠ 0 := Nat.pos_iff_ne_zero.mp h0
  have h2 := le_dpoSharedLength cfg tok bi bm ct rt
  refine ⟨⟨?_, ?_⟩, ⟨?_, ?_⟩⟩
  · rw [dpoGetItem_fst]
    exact create_mask_structure cfg tok _ _ _ h0' h2
      (prompt_chosen_le_dpoSharedLength cfg tok bi bm ct rt)
  · rw [dpoGetItem_fst]
    exact create_ids_pad_tail cfg tok _ _ _ h0' h2
      (prompt_chosen_le_dpoSharedLength cfg tok bi bm ct rt)
  · rw [dpoGetItem_snd]
    exact create_mask_structure cfg tok _ _ _ h0' h2
      (prompt_rejected_le_dpoSharedLength cfg tok bi bm ct rt)
  · rw [dpoGetItem_snd]
    exact create_ids_pad_tail cfg tok _ _ _ h0' h2
      (prompt_rejected_le_dpoSharedLength cfg tok bi bm ct rt)

/-- C7 amended witness: on the concrete truncated sample the chosen mask
is six 1s followed by four 0s. -/
theorem c7_mask_structure_witness :
    (0 : ℕ) <
      ({ dataset := { add_eos_token_to_answer := false, limit_chained_samples := true },
         tokenizer := { max_length := 10, max_length_answer := 100 } } : Cfg).tokenizer.max_length ∧
    (dpoGetItem
      { dataset := { add_eos_token_to_answer := false, limit_chained_samples := true },
        tokenizer := { max_length := 10, max_length_answer := 100 } }
      { pad_token_id := 0, eos_token_id := 99 }
      [1, 2, 3, 4, 5] [1, 1, 1, 1, 1] [11, 12, 13]
      [21, 22, 23, 24, 25, 26, 27]).1.attention_mask =
      List.replicate 6 1 ++ List.replicate 4 0 :=
  ⟨by decide,
    by
      have h := (c7_mask_structure
        { dataset := { add_eos_token_to_answer := false, limit_chained_samples := true },
          tokenizer := { max_length := 10, max_length_answer := 100 } }
        { pad_token_id := 0, eos_token_id := 99 }
        [1, 2, 3, 4, 5] [1, 1, 1, 1, 1] [11, 12, 13]
        [21, 22, 23, 24, 25, 26, 27] (by decide)).1.1
      simpa using h⟩

/-- C8: each response text is encoded independently with truncation
budget `max_length_answer - 1` when eos injection is enabled (`- 0`
otherwise), keeping the first tokens (right truncation side), and the eos
token id is appended afterwards when configured; consequently the encoded
answer has length at most `max_length_answer` and, when configured, ends
with the eos token id. -/
theorem c8_answer_encoding (cfg : Cfg) (tok : Tokenizer) (textIds : List ℤ)
    (hmla : cfg.dataset.add_eos_token_to_answer = true →
      0 < cfg.tokenizer.max_length_answer) :
    get_answer_input_ids cfg tok textIds =
      textIds.take (cfg.tokenizer.max_length_answer -
        (if cfg.dataset.add_eos_token_to_answer then 1 else 0)) ++
      (if cfg.dataset.add_eos_token_to_answer then [tok.eos_token_id] else []) ∧
    (get_answer_input_ids cfg tok textIds).length ≤
      cfg.tokenizer.max_length_answer ∧
    (cfg.dataset.add_eos_token_to_answer = true →
      (get_answer_input_ids cfg tok textIds).getLast? = some tok.eos_token_id) := by
  by_cases hEos : cfg.dataset.add_eos_token_to_answer = true
  · have h1 := hmla hEos
    refine ⟨by simp [get_answer_input_ids, encode, hEos], ?_, fun _ => ?_⟩
    · simp only [get_answer_input_ids, encode, hEos, if_true]
      rw [List.length_append, List.length_take]
      simp
      omega
    · exact get_answer_getLast cfg tok textIds hEos
  · rw [Bool.not_eq_true] at hEos
    refine ⟨by simp [get_answer_input_ids, encode, hEos], ?_, fun h => by
      rw [h] at hEos; cases hEos⟩
    simp only [get_answer_input_ids, encode, hEos]
    rw [if_neg (by simp), List.length_take]
    omega

/-- C8 witness: budget 3 with eos injection enabled; a 4-token answer is
truncated to 2 tokens plus the eos id 99, length 3 and last element 99. -/
theorem c8_answer_encoding_witness :
    (get_answer_input_ids
      { dataset := { add_eos_token_to_answer := true, limit_chained_samples := true },
        tokenizer := { max_length := 10, max_length_answer := 3 } }
      { pad_token_id := 0, eos_token_id := 99 } [7, 8, 9, 10]).length ≤ 3 ∧
    (get_answer_input_ids
      { dataset := { add_eos_token_to_answer := true, limit_chained_samples := true },
        tokenizer := { max_length := 10, max_length_answer := 3 } }
      { pad_token_id := 0, eos_token_id := 99 } [7, 8, 9, 10]).getLast?
        = some 99 :=
  ⟨(c8_answer_encoding _ _ _ (by decide)).2.1,
    (c8_answer_encoding _ _ _ (by decide)).2.2 rfl⟩

/-- C9: constructing the DPO dataset with `limit_chained_samples` disabled
fails at construction time with the assertion message, before any item is
produced; with the flag enabled construction succeeds. -/
theorem c9_construction_assert (cfg : Cfg) (df : DataFrame) :
    (cfg.dataset.limit_chained_samples = false →
      mkCustomDataset cfg df =
        Except.error "Need to enable limit_chained_samples for dpo training") ∧
    (cfg.dataset.limit_chained_samples = true →
      mkCustomDataset cfg df = Except.ok
        { chosen_answers := df.chosenResponses,
          rejected_answer := df.rejectedResponses }) := by
  constructor <;> intro h <;> simp [mkCustomDataset, h]

/-- C9 witness: a concrete frame, one config with the flag off (error)
and one with it on (success). -/
theorem c9_construction_assert_witness :
    mkCustomDataset
      { dataset := { add_eos_token_to_answer := false, limit_chained_samples := false },
        tokenizer := { max_length := 10, max_length_answer := 10 } }
      { chosenResponses := ["a"], rejectedResponses := ["b"] } =
      Except.error "Need to enable limit_chained_samples for dpo training" ∧
    mkCustomDataset
      { dataset := { add_eos_token_to_answer := false, limit_chained_samples := true },
        tokenizer := { max_length := 10, max_length_answer := 10 } }
      { chosenResponses := ["a"], rejectedResponses := ["b"] } =
      Except.ok { chosen_answers := ["a"], rejected_answer := ["b"] } :=
  ⟨(c9_construction_assert _ _).1 rfl, (c9_construction_assert _ _).2 rfl⟩

theorem maskPad_maskPrompt_ignore_or_id (pad : ℤ) (p : ℕ) (big : List ℤ)
    (j : ℕ) :
    (maskPad pad (maskPrompt p big)).getD j (-100) = -100 ∨
    (maskPad pad (maskPrompt p big)).getD j (-100) = big.getD j 0 := by
  rw [List.getD_eq_getElem?_getD, List.getD_eq_getElem?_getD,
    maskPad_getElem?, maskPrompt_getElem?]
  by_cases hj : j < big.length
  · rw [List.getElem?_eq_getElem hj]
    by_cases hp : j < p
    · left
      simp [hp]
    · by_cases hpad : big[j] = pad
      · left
        simp [hp, hpad]
      · right
        simp [hp, hpad]
  · rw [List.getElem?_eq_none (by omega)]
    left
    rfl

theorem set_eos_ignore_or_id (pad eos : ℤ) (prompt answer : List ℤ) (k : ℕ)
    (hlast : answer.getLast? = some eos) (j : ℕ) :
    ((maskPad pad (maskPrompt prompt.length
        ((prompt ++ answer) ++ List.replicate k pad))).set
      (prompt.length + answer.length - 1) eos).getD j (-100) = -100 ∨
    ((maskPad pad (maskPrompt prompt.length
        ((prompt ++ answer) ++ List.replicate k pad))).set
      (prompt.length + answer.length - 1) eos).getD j (-100) =
      ((prompt ++ answer) ++ List.replicate k pad).getD j 0 := by
  have hne : answer ≠ [] := by
    intro h
    rw [h] at hlast
    cases hlast
  have hAnz : answer.length ≠ 0 := fun h0 => hne (List.length_eq_zero.mp h0)
  by_cases hj : j = prompt.length + answer.length - 1
  · right
    subst hj
    have hlt : prompt.length + answer.length - 1 <
        (maskPad pad (maskPrompt prompt.length
          ((prompt ++ answer) ++ List.replicate k pad))).length := by
      rw [maskPad_maskPrompt_length]
      simp
      omega
    rw [List.getD_eq_getElem?_getD, List.getElem?_set_self hlt]
    rw [List.getD_eq_getElem?_getD,
      List.getElem?_append_left (by simp; omega),
      List.getElem?_append_right (by omega)]
    rw [List.getLast?_eq_getElem?] at hlast
    rw [show prompt.length + answer.length - 1 - prompt.length
        = answer.length - 1 by omega, hlast]
    rfl
  · rw [List.getD_eq_getElem?_getD, List.getElem?_set_ne (fun h => hj h.symm),
      ← List.getD_eq_getElem?_getD]
    exact maskPad_maskPrompt_ignore_or_id pad prompt.length _ j

theorem create_labels_ignore_or_id (cfg : Cfg) (tok : Tokenizer)
    (prompt answer : List ℤ) (maxLength : ℕ)
    (h1 : prompt.length + answer.length ≤ maxLength)
    (hA : cfg.dataset.add_eos_token_to_answer = true →
      answer.getLast? = some tok.eos_token_id) :
    ∀ i,
      (create_concatenated_inputs_and_labels cfg tok prompt answer
          maxLength).labels.getD i (-100) = -100 ∨
      (create_concatenated_inputs_and_labels cfg tok prompt answer
          maxLength).labels.getD i (-100) =
        (create_concatenated_inputs_and_labels cfg tok prompt answer
          maxLength).input_ids.getD i 0 := by
  intro i
  have hbig := big_length tok prompt answer maxLength h1
  rw [create_input_ids_eq cfg tok prompt answer maxLength h1,
    takeLastPy_eq_drop, hbig]
  by_cases hEos : cfg.dataset.add_eos_token_to_answer = true
  · have hlast := hA hEos
    have hne : answer ≠ [] := by
      intro h
      rw [h] at hlast
      cases hlast
    rw [create_labels_eq_eos cfg tok prompt answer maxLength hEos hne h1,
      takeLastPy_eq_drop, List.length_set, maskPad_maskPrompt_length, hbig]
    rw [List.getD_eq_getElem?_getD, List.getElem?_drop,
      List.getD_eq_getElem?_getD, List.getElem?_drop,
      ← List.getD_eq_getElem?_getD, ← List.getD_eq_getElem?_getD]
    exact set_eos_ignore_or_id tok.pad_token_id tok.eos_token_id prompt answer
      (maxLength - (prompt.length + answer.length)) hlast _
  · rw [create_labels_eq_noEos cfg tok prompt answer maxLength
      (Bool.not_eq_true _ ▸ hEos) h1,
      takeLastPy_eq_drop, maskPad_maskPrompt_length, hbig]
    rw [List.getD_eq_getElem?_getD, List.getElem?_drop,
      List.getD_eq_getElem?_getD, List.getElem?_drop,
      ← List.getD_eq_getElem?_getD, ← List.getD_eq_getElem?_getD]
    exact maskPad_maskPrompt_ignore_or_id tok.pad_token_id prompt.length _ _

/-- C10: in every emitted branch, every label is either the ignore
sentinel `-100` or exactly the input id stored at the same position; in
particular the forced end-of-sequence label coincides with the input id
already present there. -/
theorem c10_labels_ignore_or_input (cfg : Cfg) (tok : Tokenizer)
    (bi bm ct rt : List ℤ) :
    ∀ i,
      ((dpoGetItem cfg tok bi bm ct rt).1.labels.getD i (-100) = -100 ∨
        (dpoGetItem cfg tok bi bm ct rt).1.labels.getD i (-100) =
          (dpoGetItem cfg tok bi bm ct rt).1.input_ids.getD i 0) ∧
      ((dpoGetItem cfg tok bi bm ct rt).2.labels.getD i (-100) = -100 ∨
        (dpoGetItem cfg tok bi bm ct rt).2.labels.getD i (-100) =
          (dpoGetItem cfg tok bi bm ct rt).2.input_ids.getD i 0) := by
  intro i
  constructor
  · rw [dpoGetItem_fst]
    exact create_labels_ignore_or_id cfg tok _ _ _
      (prompt_chosen_le_dpoSharedLength cfg tok bi bm ct rt)
      (fun hEos => get_answer_getLast cfg tok ct hEos) i
  · rw [dpoGetItem_snd]
    exact create_labels_ignore_or_id cfg tok _ _ _
      (prompt_rejected_le_dpoSharedLength cfg tok bi bm ct rt)
      (fun hEos => get_answer_getLast cfg tok rt hEos) i

end LlmStudio
